import Mathlib

/-!
Verification of the data-plane receive path of BadVPN (`src/client/DPReceive.c`).

The central function is `receiver_recv_handler_send`: it parses a dataproto
frame from a peer's receiver, consults the device's peer registry, and either
delivers the payload locally, submits it for relaying, or drops it, always
releasing the inbound slot (`PacketPassInterface_Done`).

The embedding is a pure function from the device state, the receiving peer
(an index into the device's peer list, standing for the C peer pointer), and
the raw packet (a list of bytes) to the resulting device state together with
the ordered trace of observable effects (log lines, sink notification,
analyzer invocation, slot release, output delivery, relay submission).

Machine integers: byte values and peer ids are `Nat`s; the 16-bit wire fields
are decoded explicitly from two bytes.  The C code reads `from_id` and
`num_peer_ids` through `ltoh16` (little-endian to host), which always yields
the little-endian value of the two memory bytes, but reads the destination id
as a raw struct field, which yields the host-endian value; the embedding
therefore takes the host endianness as an explicit parameter `hostLE`.
-/

/-- Severity of a BLog diagnostic (`BLOG_WARNING`, `BLOG_INFO`, ...). -/
inductive Severity where
  | error
  | warning
  | info
  deriving DecidableEq, Repr

/-- One observable effect of `receiver_recv_handler_send`, in call order:
a `BLog` line, a `DataProtoSink_Received` notification,
a `FrameDeciderPeer_Analyze` call (recorded with the index of the source
peer), the `PacketPassInterface_Done` slot release, the device output
callback, or a `DPRelayRouter_SubmitFrame` call (source index, destination
index, payload, buffer size, inactivity time). -/
inductive Event where
  | log (sev : Severity) (msg : String)
  | sinkNotified (receivingKeepalives : Bool)
  | analyze (srcIdx : Nat) (payload : List Nat)
  | done
  | output (payload : List Nat)
  | relaySubmit (srcIdx destIdx : Nat) (payload : List Nat) (bufSize : Nat) (inactivityTime : Int)
  deriving DecidableEq, Repr

/-- A `DPReceivePeer`: the fields of the C struct that the receive path
reads.  `dp_sink` records whether a sink is attached; `decider_peer` is the
opaque analyzer handle. -/
structure DPReceivePeer where
  peer_id : Nat
  is_relay_client : Bool
  dp_sink : Bool
  decider_peer : Nat
  deriving DecidableEq, Repr

/-- A `DPReceiveDevice`: MTUs, optional own peer id, the peer registry
(`peers_list`, in insertion order, as in the C linked list), and the relay
flow parameters passed through to `DPRelayRouter_SubmitFrame`. -/
structure DPReceiveDevice where
  device_mtu : Nat
  packet_mtu : Nat
  have_peer_id : Bool
  peer_id : Nat
  peers_list : List DPReceivePeer
  relay_flow_buffer_size : Nat
  relay_flow_inactivity_time : Int
  deriving DecidableEq, Repr

/-- `sizeof(struct dataproto_header)`: flags (1) + from_id (2) + num_peer_ids (2),
packed. -/
def dataproto_header_size : Nat := 5

/-- `sizeof(struct dataproto_peer_id)`: one 16-bit peer id. -/
def peerid_size : Nat := 2

/-- `DATAPROTO_FLAGS_RECEIVING_KEEPALIVES`: bit 0 of the flags byte. -/
def DATAPROTO_FLAGS_RECEIVING_KEEPALIVES : Nat := 1

/-- `ltoh8`: an 8-bit field is the byte itself. -/
def ltoh8 (b : Nat) : Nat := b

/-- `ltoh16` applied to a 16-bit struct field whose memory bytes are
`b0, b1`: always the little-endian value, on any host. -/
def ltoh16 (b0 b1 : Nat) : Nat := b0 + 256 * b1

/-- A raw (native-endian) read of a 16-bit field with memory bytes `b0, b1`:
little-endian on a little-endian host, big-endian otherwise.  This is what
`to_id = ((struct dataproto_peer_id *)data)->id;` performs, with no `ltoh16`. -/
def native16 (hostLE : Bool) (b0 b1 : Nat) : Nat :=
  if hostLE then b0 + 256 * b1 else 256 * b0 + b1

/-- `ltoh8(header->flags)`: byte 0 of the packet. -/
def decode_flags (packet : List Nat) : Nat := ltoh8 (packet.getD 0 0)

/-- `ltoh16(header->from_id)`: bytes 1..2 of the packet, little-endian. -/
def decode_from_id (packet : List Nat) : Nat :=
  ltoh16 (packet.getD 1 0) (packet.getD 2 0)

/-- `ltoh16(header->num_peer_ids)`: bytes 3..4 of the packet, little-endian. -/
def decode_num_ids (packet : List Nat) : Nat :=
  ltoh16 (packet.getD 3 0) (packet.getD 4 0)

/-- `((struct dataproto_peer_id *)data)->id` after the header was stripped:
bytes 5..6 of the packet, read native-endian (no `ltoh16` in the source). -/
def decode_to_id (hostLE : Bool) (packet : List Nat) : Nat :=
  native16 hostLE (packet.getD 5 0) (packet.getD 6 0)

/-- The payload of a frame with one destination id: everything after the
header and the destination id. -/
def stripped (packet : List Nat) : List Nat :=
  packet.drop (dataproto_header_size + peerid_size)

/-- `!!(flags & DATAPROTO_FLAGS_RECEIVING_KEEPALIVES)`. -/
def keepalive_bit (packet : List Nat) : Bool :=
  (decode_flags packet &&& DATAPROTO_FLAGS_RECEIVING_KEEPALIVES) != 0

/-- Default peer used by `getPeer` out of range; `receiver_recv_handler_send`
is only meaningful for a valid peer index (the C receiver holds a pointer to
a live registered peer). -/
def default_peer : DPReceivePeer :=
  { peer_id := 0, is_relay_client := false, dp_sink := false, decider_peer := 0 }

/-- The receiving peer `o->peer`, as an index into the device's peer list. -/
def getPeer (device : DPReceiveDevice) (peerIdx : Nat) : DPReceivePeer :=
  device.peers_list.getD peerIdx default_peer

/-- The scan loop of `find_peer`: first list position holding a peer with the
given id, or `none`.  Positions stand for the C peer pointers, so two peers
with equal ids are still distinguished. -/
def find_peer_from (l : List DPReceivePeer) (id : Nat) : Option Nat :=
  match l with
  | [] => none
  | p :: rest =>
    if p.peer_id = id then some 0
    else Option.map (fun i => i + 1) (find_peer_from rest id)

/-- `find_peer`: scan the device's peer list for the first peer with the
given id. -/
def find_peer (o : DPReceiveDevice) (id : Nat) : Option Nat :=
  find_peer_from o.peers_list id

/-- The `DataProtoSink_Received` notification of lines 99-102: one event when
the receiving peer has an attached sink, nothing otherwise. -/
def sink_events (device : DPReceiveDevice) (peerIdx : Nat) (packet : List Nat) : List Event :=
  if (getPeer device peerIdx).dp_sink then
    [Event.sinkNotified (keepalive_bit packet)]
  else []

/-- The `num_ids == 1` routing block (lines 104-146): resolve the source
peer, then either mark the frame local (analyzer event + local payload) or
walk the relay checks and possibly produce a relay request.  Returns the
device state left behind, the events up to the `out` label, the payload to
output when `local` was set, and the relay request when `relay_dest_peer`
was set. -/
def route_one (hostLE : Bool) (device : DPReceiveDevice) (peerIdx : Nat) (packet : List Nat) :
    DPReceiveDevice × List Event × Option (List Nat) × Option (Nat × Nat × List Nat) :=
  match find_peer device (decode_from_id packet) with
  | none =>
    (device, sink_events device peerIdx packet ++
      [Event.log Severity.info "source peer not known"], none, none)
  | some srcIdx =>
    if device.have_peer_id = true ∧ decode_to_id hostLE packet = device.peer_id then
      (device, sink_events device peerIdx packet ++
        [Event.analyze srcIdx (stripped packet)], some (stripped packet), none)
    else if (getPeer device peerIdx).is_relay_client = false then
      (device, sink_events device peerIdx packet ++
        [Event.log Severity.warning "relaying not allowed"], none, none)
    else if srcIdx ≠ peerIdx then
      (device, sink_events device peerIdx packet ++
        [Event.log Severity.warning "relay source must be the sending peer"], none, none)
    else
      match find_peer device (decode_to_id hostLE packet) with
      | none =>
        (device, sink_events device peerIdx packet ++
          [Event.log Severity.info "relay destination peer not known"], none, none)
      | some destIdx =>
        if destIdx = srcIdx then
          (device, sink_events device peerIdx packet ++
            [Event.log Severity.warning "relay destination cannot be the source"], none, none)
        else
          (device, sink_events device peerIdx packet, none,
            some (srcIdx, destIdx, stripped packet))

/-- The body of `receiver_recv_handler_send` up to the `out` label: header
checks (lines 65-97), sink notification, and routing.  Each early `goto out`
becomes a return carrying the warning logged there. -/
def handler_body (hostLE : Bool) (device : DPReceiveDevice) (peerIdx : Nat) (packet : List Nat) :
    DPReceiveDevice × List Event × Option (List Nat) × Option (Nat × Nat × List Nat) :=
  if packet.length < dataproto_header_size then
    (device, [Event.log Severity.warning "no dataproto header"], none, none)
  else if ¬ (decode_num_ids packet = 0 ∨ decode_num_ids packet = 1) then
    (device, [Event.log Severity.warning "wrong number of destinations"], none, none)
  else if decode_num_ids packet = 1 ∧ packet.length - dataproto_header_size < peerid_size then
    (device, [Event.log Severity.warning "missing destination"], none, none)
  else if decode_num_ids packet = 1 then
    if (stripped packet).length > device.device_mtu then
      (device, [Event.log Severity.warning "frame too large"], none, none)
    else route_one hostLE device peerIdx packet
  else
    if (packet.drop dataproto_header_size).length > device.device_mtu then
      (device, [Event.log Severity.warning "frame too large"], none, none)
    else
      (device, sink_events device peerIdx packet, none, none)

/-- The code after the `out` label (lines 148-161): release the slot
(`PacketPassInterface_Done`), then deliver locally if `local` was set, then
submit the relay request if `relay_dest_peer` was set, with the device's
relay flow parameters. -/
def out_tail (device : DPReceiveDevice) (localOpt : Option (List Nat))
    (relayOpt : Option (Nat × Nat × List Nat)) : List Event :=
  Event.done ::
    ((match localOpt with
      | some p => [Event.output p]
      | none => []) ++
     (match relayOpt with
      | some (s, d, p) =>
        [Event.relaySubmit s d p device.relay_flow_buffer_size device.relay_flow_inactivity_time]
      | none => []))

/-- `receiver_recv_handler_send`: the full handler, returning the device
state after the call and the ordered trace of observable effects. -/
def receiver_recv_handler_send (hostLE : Bool) (device : DPReceiveDevice) (peerIdx : Nat)
    (packet : List Nat) : DPReceiveDevice × List Event :=
  match handler_body hostLE device peerIdx packet with
  | (dev, evs, localOpt, relayOpt) => (dev, evs ++ out_tail device localOpt relayOpt)

/-- `DPReceivePeer_Init`, restricted to its effect on the registry: append
the new peer at the back of the device's peer list (`LinkedList2_Append`),
with no duplicate-id check. -/
def DPReceivePeer_Init (device : DPReceiveDevice) (peer : DPReceivePeer) : DPReceiveDevice :=
  { device with peers_list := device.peers_list ++ [peer] }

/-- `true` exactly on the slot-release event. -/
def is_done_event : Event → Bool
  | Event.done => true
  | _ => false

/-- `true` exactly on output-delivery events. -/
def is_output_event : Event → Bool
  | Event.output _ => true
  | _ => false

/-- `true` exactly on relay-submission events. -/
def is_relay_event : Event → Bool
  | Event.relaySubmit _ _ _ _ _ => true
  | _ => false

/-- `true` when the trace holds a relay submission. -/
def has_relay (evs : List Event) : Bool :=
  evs.any is_relay_event

/-- The checks of steps 2-5 (lines 65-97) all pass: header bytes present,
destination count 0 or 1, destination id bytes present when the count is 1,
and remaining payload at most the device MTU.  This is exactly the guard for
reaching the sink notification of lines 99-102. -/
def pre_routing_ok (device : DPReceiveDevice) (packet : List Nat) : Prop :=
  dataproto_header_size ≤ packet.length ∧
  ((decode_num_ids packet = 0 ∧ (packet.drop dataproto_header_size).length ≤ device.device_mtu) ∨
   (decode_num_ids packet = 1 ∧ peerid_size ≤ packet.length - dataproto_header_size ∧
     (stripped packet).length ≤ device.device_mtu))

instance (device : DPReceiveDevice) (packet : List Nat) :
    Decidable (pre_routing_ok device packet) := by
  unfold pre_routing_ok; infer_instance

/-- What a relay request of the handler body must satisfy: the source index
is the resolution of the decoded source id and is the receiving peer, the
destination index is the resolution of the decoded destination id and
differs from the source, and the payload is the stripped packet. -/
def relay_opt_ok (hostLE : Bool) (device : DPReceiveDevice) (peerIdx : Nat)
    (packet : List Nat) : Option (Nat × Nat × List Nat) → Prop
  | none => True
  | some (s, d, pl) =>
    find_peer device (decode_from_id packet) = some s ∧ s = peerIdx ∧
    find_peer device (decode_to_id hostLE packet) = some d ∧ d ≠ s ∧
    pl = stripped packet

/-! Concrete fixtures used to instantiate the theorems. -/

/-- A relay-capable peer with id 5 and an attached sink. -/
def wPeer : DPReceivePeer :=
  { peer_id := 5, is_relay_client := true, dp_sink := true, decider_peer := 0 }

/-- A non-relay peer with id 9 and no sink. -/
def wPeer2 : DPReceivePeer :=
  { peer_id := 9, is_relay_client := false, dp_sink := false, decider_peer := 1 }

/-- A device with own id 7 and peers `wPeer`, `wPeer2`. -/
def wDevice : DPReceiveDevice :=
  { device_mtu := 100, packet_mtu := 107, have_peer_id := true, peer_id := 7,
    peers_list := [wPeer, wPeer2], relay_flow_buffer_size := 16,
    relay_flow_inactivity_time := 1000 }

/-- flags 1, from 5, count 1, dest 7 (= `wDevice`'s own id), payload `[42, 43]`. -/
def localPkt : List Nat := [1, 5, 0, 1, 0, 7, 0, 42, 43]

/-- flags 0, from 5, count 1, dest 9 (peer `wPeer2`), payload `[1, 2, 3]`. -/
def relayPkt : List Nat := [0, 5, 0, 1, 0, 9, 0, 1, 2, 3]

/-- flags 0, from 5, count 1, dest 5: source and destination coincide. -/
def selfRelayPkt : List Nat := [0, 5, 0, 1, 0, 5, 0, 9]

/-- flags 0, from 5, count 0, payload `[9]`. -/
def zeroPkt : List Nat := [0, 5, 0, 0, 0, 9]

/-- flags 0, from 6 (no such peer), count 1, dest 9. -/
def unknownSrcPkt : List Nat := [0, 6, 0, 1, 0, 9, 0]

/-- flags 0, from 5, count 1, dest 99 (no such peer). -/
def unknownDstPkt : List Nat := [0, 5, 0, 1, 0, 99, 0]

/-- A relay-capable peer with id 5 and no sink, for the endianness scenario. -/
def bePeer : DPReceivePeer :=
  { peer_id := 5, is_relay_client := true, dp_sink := false, decider_peer := 0 }

/-- A device whose own id is 513 = `0x0201`. -/
def beDevice : DPReceiveDevice :=
  { device_mtu := 100, packet_mtu := 107, have_peer_id := true, peer_id := 513,
    peers_list := [bePeer], relay_flow_buffer_size := 16,
    relay_flow_inactivity_time := 1000 }

/-- flags 0, from 5, count 1, destination bytes `[1, 2]` (little-endian value
513), payload `[77]`. -/
def bePkt : List Nat := [0, 5, 0, 1, 0, 1, 2, 77]

/-! Helper lemmas about the shape of the handler's trace. -/

/-- Sink notification events never include the slot release or a relay
submission. -/
theorem mem_sink_events (device : DPReceiveDevice) (peerIdx : Nat) (packet : List Nat)
    (e : Event) (h : e ∈ sink_events device peerIdx packet) :
    e = Event.sinkNotified (keepalive_bit packet) := by
  unfold sink_events at h
  split at h <;> simp_all

/-- The handler body leaves the device state untouched: no branch of
`receiver_recv_handler_send` writes to the device or a peer. -/
theorem handler_body_fst (hostLE : Bool) (device : DPReceiveDevice) (peerIdx : Nat)
    (packet : List Nat) : (handler_body hostLE device peerIdx packet).1 = device := by
  unfold handler_body route_one
  repeat' split
  all_goals rfl

/-- The body events are only logs, a sink notification, or an analyzer call:
any classifier rejecting those three kinds counts zero body events.  The slot
release, the output delivery, and the relay submission all come from
`out_tail`. -/
theorem route_one_countP (hostLE : Bool) (device : DPReceiveDevice) (peerIdx : Nat)
    (packet : List Nat) (p : Event → Bool)
    (hlog : ∀ sev msg, p (Event.log sev msg) = false)
    (hsink : ∀ b, p (Event.sinkNotified b) = false)
    (hana : ∀ i pl, p (Event.analyze i pl) = false) :
    (route_one hostLE device peerIdx packet).2.1.countP p = 0 := by
  unfold route_one sink_events
  repeat' split
  all_goals simp [List.countP_append, List.countP_cons, hlog, hsink, hana]

/-- The body events (all of `handler_body`) likewise contain no event of a
kind produced only by `out_tail`. -/
theorem handler_body_countP (hostLE : Bool) (device : DPReceiveDevice) (peerIdx : Nat)
    (packet : List Nat) (p : Event → Bool)
    (hlog : ∀ sev msg, p (Event.log sev msg) = false)
    (hsink : ∀ b, p (Event.sinkNotified b) = false)
    (hana : ∀ i pl, p (Event.analyze i pl) = false) :
    (handler_body hostLE device peerIdx packet).2.1.countP p = 0 := by
  unfold handler_body
  repeat' split
  all_goals
    first
      | exact route_one_countP hostLE device peerIdx packet p hlog hsink hana
      | simp [sink_events, List.countP_append, List.countP_cons, hlog, hsink, hana]

/-- C10: `handle_incoming` never mutates device or registry state: the MTUs,
self-id configuration, relay flow parameters, and the whole peer list (ids,
relay-capability flags, sinks, analyzer handles, order) are the same after
the call as before it; only the effect trace is produced. -/
theorem C10_state_preserved (hostLE : Bool) (device : DPReceiveDevice) (peerIdx : Nat)
    (packet : List Nat) :
    (receiver_recv_handler_send hostLE device peerIdx packet).1 = device := by
  have h1 := handler_body_fst hostLE device peerIdx packet
  rcases hb : handler_body hostLE device peerIdx packet with ⟨dev, evs, lo, ro⟩
  rw [hb] at h1
  simp only [receiver_recv_handler_send, hb]
  exact h1

/-- C1: a valid frame with destination count 1 whose destination id is the
device's configured own id is delivered locally: after the sink
notification, the analyzer runs on the resolved source peer with the
stripped payload, the slot is released, and the output callback receives
exactly the stripped payload; no relay submission occurs. -/
theorem C1_local_delivery (hostLE : Bool) (device : DPReceiveDevice) (peerIdx : Nat)
    (packet : List Nat) (srcIdx : Nat)
    (hlen : dataproto_header_size ≤ packet.length)
    (hnum : decode_num_ids packet = 1)
    (hdest : peerid_size ≤ packet.length - dataproto_header_size)
    (hmtu : (stripped packet).length ≤ device.device_mtu)
    (hsrc : find_peer device (decode_from_id packet) = some srcIdx)
    (hself : device.have_peer_id = true)
    (hto : decode_to_id hostLE packet = device.peer_id) :
    (receiver_recv_handler_send hostLE device peerIdx packet).2 =
      sink_events device peerIdx packet ++
        [Event.analyze srcIdx (stripped packet), Event.done,
         Event.output (stripped packet)] := by
  have hbody : handler_body hostLE device peerIdx packet =
      (device, sink_events device peerIdx packet ++ [Event.analyze srcIdx (stripped packet)],
        some (stripped packet), none) := by
    unfold handler_body route_one
    rw [if_neg (by omega), if_neg (by simp [hnum]),
      if_neg (by rintro ⟨-, h2⟩; omega), if_pos hnum, if_neg (by omega), hsrc]
    simp [hself, hto]
  simp [receiver_recv_handler_send, hbody, out_tail]

/-- C1 witness: the local-delivery theorem applied to `wDevice` and
`localPkt`. -/
theorem C1_witness :
    (receiver_recv_handler_send true wDevice 0 localPkt).2 =
      sink_events wDevice 0 localPkt ++
        [Event.analyze 0 (stripped localPkt), Event.done, Event.output (stripped localPkt)] :=
  C1_local_delivery true wDevice 0 localPkt 0 (by decide) (by decide) (by decide)
    (by decide) (by decide) (by decide) (by decide)

/-- C3 (amended): every path of `handle_incoming` releases the inbound slot
exactly once — never zero, never twice — after all parsing, diagnostics,
sink notification and analyzer processing; but the release precedes local
output delivery and relay submission, which are the only effects that may
follow it. -/
theorem C3_slot_release_once (hostLE : Bool) (device : DPReceiveDevice) (peerIdx : Nat)
    (packet : List Nat) :
    ∃ pre post,
      (receiver_recv_handler_send hostLE device peerIdx packet).2 = pre ++ Event.done :: post ∧
      pre.countP is_done_event = 0 ∧
      pre.countP is_output_event = 0 ∧
      pre.countP is_relay_event = 0 ∧
      post.countP is_done_event = 0 ∧
      ∀ e ∈ post, is_output_event e = true ∨ is_relay_event e = true := by
  have hpre := handler_body_countP hostLE device peerIdx packet is_done_event
    (fun sev msg => rfl) (fun b => rfl) (fun i pl => rfl)
  have hpreo := handler_body_countP hostLE device peerIdx packet is_output_event
    (fun sev msg => rfl) (fun b => rfl) (fun i pl => rfl)
  have hprer := handler_body_countP hostLE device peerIdx packet is_relay_event
    (fun sev msg => rfl) (fun b => rfl) (fun i pl => rfl)
  rcases hb : handler_body hostLE device peerIdx packet with ⟨dev, evs, lo, ro⟩
  rw [hb] at hpre hpreo hprer
  rcases lo with _ | pl <;> rcases ro with _ | ⟨s, d, pl2⟩
  · exact ⟨evs, [], by simp [receiver_recv_handler_send, hb, out_tail], hpre, hpreo, hprer,
      by simp, by simp⟩
  · refine ⟨evs, [Event.relaySubmit s d pl2
      device.relay_flow_buffer_size device.relay_flow_inactivity_time],
      by simp [receiver_recv_handler_send, hb, out_tail], hpre, hpreo, hprer,
      by simp [List.countP_cons, is_done_event], ?_⟩
    intro e he
    simp only [List.mem_singleton] at he
    subst he
    simp [is_relay_event]
  · refine ⟨evs, [Event.output pl],
      by simp [receiver_recv_handler_send, hb, out_tail], hpre, hpreo, hprer,
      by simp [List.countP_cons, is_done_event], ?_⟩
    intro e he
    simp only [List.mem_singleton] at he
    subst he
    simp [is_output_event]
  · refine ⟨evs, [Event.output pl, Event.relaySubmit s d pl2
      device.relay_flow_buffer_size device.relay_flow_inactivity_time],
      by simp [receiver_recv_handler_send, hb, out_tail], hpre, hpreo, hprer,
      by simp [List.countP_cons, is_done_event], ?_⟩
    intro e he
    rcases List.mem_cons.mp he with he | he
    · subst he; simp [is_output_event]
    · simp only [List.mem_singleton] at he
      subst he
      simp [is_relay_event]

/-- C3 counterexample: on a locally delivered frame the slot release is not
the final effect of the call — the output delivery comes after it. -/
theorem C3_release_not_last :
    (receiver_recv_handler_send true wDevice 0 localPkt).2 =
      [Event.sinkNotified true, Event.analyze 0 [42, 43], Event.done, Event.output [42, 43]] ∧
    (receiver_recv_handler_send true wDevice 0 localPkt).2.getLast? =
      some (Event.output [42, 43]) := by
  decide

/-- C7: a valid frame with destination count 0 performs no routing at all:
besides the optional sink notification the only effect is the slot release —
no analyzer call, no output delivery, no relay submission, and no diagnostic. -/
theorem C7_count_zero_noop (hostLE : Bool) (device : DPReceiveDevice) (peerIdx : Nat)
    (packet : List Nat)
    (hlen : dataproto_header_size ≤ packet.length)
    (hnum : decode_num_ids packet = 0)
    (hmtu : (packet.drop dataproto_header_size).length ≤ device.device_mtu) :
    (receiver_recv_handler_send hostLE device peerIdx packet).2 =
      sink_events device peerIdx packet ++ [Event.done] := by
  have hbody : handler_body hostLE device peerIdx packet =
      (device, sink_events device peerIdx packet, none, none) := by
    unfold handler_body
    rw [if_neg (by omega), if_neg (by simp [hnum]), if_neg (by rintro ⟨h1, -⟩; omega),
      if_neg (by omega), if_neg (by omega)]
  simp [receiver_recv_handler_send, hbody, out_tail]

/-- C7 witness: the count-0 theorem applied to `wDevice` and `zeroPkt`. -/
theorem C7_witness :
    (receiver_recv_handler_send true wDevice 0 zeroPkt).2 =
      sink_events wDevice 0 zeroPkt ++ [Event.done] :=
  C7_count_zero_noop true wDevice 0 zeroPkt (by decide) (by decide) (by decide)

/-- C8: a count-1 frame whose source id is unknown, and a relay attempt whose
destination id is unknown, are both dropped with an informational (not
warning) diagnostic: no analyzer call, no output, no relay submission, and
the slot is still released. -/
theorem C8_unknown_peer_drop (hostLE : Bool) (device : DPReceiveDevice) (peerIdx : Nat)
    (packet : List Nat)
    (hlen : dataproto_header_size ≤ packet.length)
    (hnum : decode_num_ids packet = 1)
    (hdest : peerid_size ≤ packet.length - dataproto_header_size)
    (hmtu : (stripped packet).length ≤ device.device_mtu) :
    (find_peer device (decode_from_id packet) = none →
      (receiver_recv_handler_send hostLE device peerIdx packet).2 =
        sink_events device peerIdx packet ++
          [Event.log Severity.info "source peer not known", Event.done]) ∧
    (∀ srcIdx, find_peer device (decode_from_id packet) = some srcIdx →
      ¬ (device.have_peer_id = true ∧ decode_to_id hostLE packet = device.peer_id) →
      (getPeer device peerIdx).is_relay_client = true →
      srcIdx = peerIdx →
      find_peer device (decode_to_id hostLE packet) = none →
      (receiver_recv_handler_send hostLE device peerIdx packet).2 =
        sink_events device peerIdx packet ++
          [Event.log Severity.info "relay destination peer not known", Event.done]) := by
  constructor
  · intro hsrc
    have hbody : handler_body hostLE device peerIdx packet =
        (device, sink_events device peerIdx packet ++
          [Event.log Severity.info "source peer not known"], none, none) := by
      unfold handler_body route_one
      rw [if_neg (by omega), if_neg (by simp [hnum]), if_neg (by rintro ⟨-, h2⟩; omega),
        if_pos hnum, if_neg (by omega)]
      simp only [hsrc]
    simp [receiver_recv_handler_send, hbody, out_tail]
  · intro srcIdx hsrc hnl hrc hsp hdst
    have hbody : handler_body hostLE device peerIdx packet =
        (device, sink_events device peerIdx packet ++
          [Event.log Severity.info "relay destination peer not known"], none, none) := by
      unfold handler_body route_one
      rw [if_neg (by omega), if_neg (by simp [hnum]), if_neg (by rintro ⟨-, h2⟩; omega),
        if_pos hnum, if_neg (by omega)]
      simp only [hsrc]
      rw [if_neg hnl, if_neg (by simp [hrc]), if_neg (by simp [hsp])]
      simp only [hdst]
    simp [receiver_recv_handler_send, hbody, out_tail]

/-- C8 witness: the unknown-source part applied to `unknownSrcPkt` and the
unknown-destination part applied to `unknownDstPkt`, on `wDevice`. -/
theorem C8_witness :
    ((receiver_recv_handler_send true wDevice 0 unknownSrcPkt).2 =
      sink_events wDevice 0 unknownSrcPkt ++
        [Event.log Severity.info "source peer not known", Event.done]) ∧
    ((receiver_recv_handler_send true wDevice 0 unknownDstPkt).2 =
      sink_events wDevice 0 unknownDstPkt ++
        [Event.log Severity.info "relay destination peer not known", Event.done]) :=
  ⟨(C8_unknown_peer_drop true wDevice 0 unknownSrcPkt (by decide) (by decide) (by decide)
      (by decide)).1 (by decide),
   (C8_unknown_peer_drop true wDevice 0 unknownDstPkt (by decide) (by decide) (by decide)
      (by decide)).2 0 (by decide) (by decide) (by decide) (by decide) (by decide)⟩

/-- In a registry whose peer ids are pairwise distinct, the scan run on a
registered peer's own id stops exactly at that peer's position. -/
theorem find_peer_from_self (l : List DPReceivePeer) (i : Nat) (hi : i < l.length)
    (huniq : l.Pairwise (fun p q => p.peer_id ≠ q.peer_id)) :
    find_peer_from l (l.getD i default_peer).peer_id = some i := by
  induction l generalizing i with
  | nil => simp at hi
  | cons p rest ih =>
    rcases List.pairwise_cons.mp huniq with ⟨hhead, htail⟩
    cases i with
    | zero => simp [find_peer_from]
    | succ j =>
      have hj : j < rest.length := by simpa using hi
      have hmem : rest.getD j default_peer ∈ rest := by
        rw [List.getD_eq_getElem rest default_peer hj]
        exact List.getElem_mem hj
      have hne : p.peer_id ≠ (rest.getD j default_peer).peer_id := hhead _ hmem
      rw [List.getD_cons_succ]
      unfold find_peer_from
      rw [if_neg hne, ih j hj htail]
      rfl

/-- C2 (amended): a valid count-1 frame addressed to a known peer other than
the device itself, received from a relay-capable peer that names itself as
source, and whose destination peer is distinct from the source peer,
produces exactly one relay submission, addressed from the source peer to the
destination peer and carrying the device's configured relay buffer size and
inactivity timeout; the output callback is not invoked. -/
theorem C2_relay_submission (hostLE : Bool) (device : DPReceiveDevice) (peerIdx : Nat)
    (packet : List Nat) (destIdx : Nat)
    (hvalid : peerIdx < device.peers_list.length)
    (huniq : device.peers_list.Pairwise (fun p q => p.peer_id ≠ q.peer_id))
    (hlen : dataproto_header_size ≤ packet.length)
    (hnum : decode_num_ids packet = 1)
    (hdest : peerid_size ≤ packet.length - dataproto_header_size)
    (hmtu : (stripped packet).length ≤ device.device_mtu)
    (hfrom : decode_from_id packet = (getPeer device peerIdx).peer_id)
    (hnotlocal : ¬ (device.have_peer_id = true ∧ decode_to_id hostLE packet = device.peer_id))
    (hrelay : (getPeer device peerIdx).is_relay_client = true)
    (hdst : find_peer device (decode_to_id hostLE packet) = some destIdx)
    (hne : destIdx ≠ peerIdx) :
    (receiver_recv_handler_send hostLE device peerIdx packet).2 =
      sink_events device peerIdx packet ++
        [Event.done,
         Event.relaySubmit peerIdx destIdx (stripped packet)
           device.relay_flow_buffer_size device.relay_flow_inactivity_time] := by
  have hsrc : find_peer device (decode_from_id packet) = some peerIdx := by
    rw [hfrom]
    exact find_peer_from_self device.peers_list peerIdx hvalid huniq
  have hbody : handler_body hostLE device peerIdx packet =
      (device, sink_events device peerIdx packet, none,
        some (peerIdx, destIdx, stripped packet)) := by
    unfold handler_body route_one
    rw [if_neg (by omega), if_neg (by simp [hnum]), if_neg (by rintro ⟨-, h2⟩; omega),
      if_pos hnum, if_neg (by omega)]
    simp only [hsrc]
    rw [if_neg hnotlocal, if_neg (by simp [hrelay]), if_neg (by simp)]
    simp only [hdst]
    rw [if_neg hne]
  simp [receiver_recv_handler_send, hbody, out_tail]

/-- C2 counterexample: on `selfRelayPkt` every condition stated by the claim
holds — valid count-1 frame, destination resolving to a known peer whose id
differs from the device's own id, relay-capable receiving peer naming itself
as source — yet no relay submission occurs, because the destination peer is
the source peer itself. -/
theorem C2_counterexample :
    decode_num_ids selfRelayPkt = 1 ∧
    find_peer wDevice (decode_from_id selfRelayPkt) = some 0 ∧
    decode_from_id selfRelayPkt = (getPeer wDevice 0).peer_id ∧
    (getPeer wDevice 0).is_relay_client = true ∧
    find_peer wDevice (decode_to_id true selfRelayPkt) = some 0 ∧
    decode_to_id true selfRelayPkt ≠ wDevice.peer_id ∧
    wDevice.have_peer_id = true ∧
    has_relay (receiver_recv_handler_send true wDevice 0 selfRelayPkt).2 = false := by
  decide

/-- C2 witness: the amended relay theorem applied to `wDevice`, receiving
peer 0 and `relayPkt`, yielding the submission addressed 0 → 1. -/
theorem C2_witness :
    (receiver_recv_handler_send true wDevice 0 relayPkt).2 =
      sink_events wDevice 0 relayPkt ++
        [Event.done,
         Event.relaySubmit 0 1 (stripped relayPkt)
           wDevice.relay_flow_buffer_size wDevice.relay_flow_inactivity_time] :=
  C2_relay_submission true wDevice 0 relayPkt 1 (by decide) (by decide) (by decide)
    (by decide) (by decide) (by decide) (by decide) (by decide) (by decide) (by decide)
    (by decide)

/-- C5: the destination id is not decoded as a little-endian 16-bit field:
the source reads it as a raw native-endian struct field, omitting the
`ltoh16` conversion it applies to `from_id` and `num_peer_ids`.  On a
big-endian host the destination bytes `[1, 2]` decode to 258 instead of the
little-endian 513, and routing changes: the frame that a little-endian host
delivers locally is treated by a big-endian host as a relay attempt to an
unknown peer. -/
theorem C5_dest_id_not_little_endian :
    ltoh16 (bePkt.getD 5 0) (bePkt.getD 6 0) = 513 ∧
    decode_to_id true bePkt = 513 ∧
    decode_to_id false bePkt = 258 ∧
    (receiver_recv_handler_send true beDevice 0 bePkt).2 =
      [Event.analyze 0 [77], Event.done, Event.output [77]] ∧
    (receiver_recv_handler_send false beDevice 0 bePkt).2 =
      [Event.log Severity.info "relay destination peer not known", Event.done] := by
  decide

/-- Any relay request produced by the routing block satisfies
`relay_opt_ok`: in particular its destination peer differs from its source
peer. -/
theorem route_one_relay (hostLE : Bool) (device : DPReceiveDevice) (peerIdx : Nat)
    (packet : List Nat) :
    relay_opt_ok hostLE device peerIdx packet (route_one hostLE device peerIdx packet).2.2.2 := by
  unfold route_one
  repeat' split
  all_goals simp_all [relay_opt_ok]

/-- Any relay request produced by the whole handler body satisfies
`relay_opt_ok`. -/
theorem handler_body_relay (hostLE : Bool) (device : DPReceiveDevice) (peerIdx : Nat)
    (packet : List Nat) :
    relay_opt_ok hostLE device peerIdx packet
      (handler_body hostLE device peerIdx packet).2.2.2 := by
  unfold handler_body
  repeat' split
  all_goals
    first
      | exact route_one_relay hostLE device peerIdx packet
      | simp [relay_opt_ok]

/-- C6: no self-relay: every relay submission in the trace has a destination
peer distinct from its source peer; and a frame whose decoded source id
equals its decoded destination id never produces a relay submission. -/
theorem C6_no_self_relay (hostLE : Bool) (device : DPReceiveDevice) (peerIdx : Nat)
    (packet : List Nat) :
    (∀ s d pl bs t, Event.relaySubmit s d pl bs t ∈
        (receiver_recv_handler_send hostLE device peerIdx packet).2 → d ≠ s) ∧
    (decode_from_id packet = decode_to_id hostLE packet →
      has_relay (receiver_recv_handler_send hostLE device peerIdx packet).2 = false) := by
  have hrel := handler_body_relay hostLE device peerIdx packet
  have hcnt := handler_body_countP hostLE device peerIdx packet is_relay_event
    (fun sev msg => rfl) (fun b => rfl) (fun i pl => rfl)
  rcases hb : handler_body hostLE device peerIdx packet with ⟨dev, evs, lo, ro⟩
  rw [hb] at hrel hcnt
  have hnotin : ∀ a ∈ evs, is_relay_event a = false := by
    intro a ha
    have hz := List.countP_eq_zero.mp hcnt a ha
    simpa using hz
  constructor
  · intro s d pl bs t hmem
    simp only [receiver_recv_handler_send, hb] at hmem
    rcases List.mem_append.mp hmem with h | h
    · have hfalse := hnotin _ h
      simp [is_relay_event] at hfalse
    · unfold out_tail at h
      rcases lo with _ | opl <;> rcases ro with _ | ⟨s2, d2, pl2⟩
      · simp at h
      · obtain ⟨hfs, hsp, hfd, hds, hpl⟩ := hrel
        simp only [List.nil_append, List.mem_cons, List.mem_singleton,
          List.not_mem_nil, or_false] at h
        rcases h with h | h
        · simp at h
        · rw [Event.relaySubmit.injEq] at h
          obtain ⟨h1, h2, h3, h4, h5⟩ := h
          omega
      · simp at h
      · obtain ⟨hfs, hsp, hfd, hds, hpl⟩ := hrel
        simp only [List.cons_append, List.nil_append, List.mem_cons,
          List.mem_singleton, List.not_mem_nil, or_false] at h
        rcases h with h | h | h
        · simp at h
        · simp at h
        · rw [Event.relaySubmit.injEq] at h
          obtain ⟨h1, h2, h3, h4, h5⟩ := h
          omega
  · intro heq
    rcases hro : ro with _ | ⟨s2, d2, pl2⟩
    · simp only [receiver_recv_handler_send, hb, hro]
      unfold has_relay out_tail
      have hany : evs.any is_relay_event = false := by
        rw [List.any_eq_false]
        intro a ha
        simp [hnotin a ha]
      rcases lo with _ | opl <;>
        simp [List.any_append, hany, is_relay_event]
    · exfalso
      rw [hro] at hrel
      rcases hrel with ⟨hfs, hsp, hfd, hds, hpl⟩
      rw [heq] at hfs
      rw [hfs] at hfd
      have : s2 = d2 := by simpa using hfd
      exact hds this.symm

/-- C6 witness: a concrete relay submission (on `relayPkt`) has distinct
destination and source, and the self-addressed `selfRelayPkt` produces no
relay submission. -/
theorem C6_witness :
    (1 : Nat) ≠ 0 ∧
    has_relay (receiver_recv_handler_send true wDevice 0 selfRelayPkt).2 = false :=
  ⟨(C6_no_self_relay true wDevice 0 relayPkt).1 0 1 [1, 2, 3] 16 1000 (by decide),
   (C6_no_self_relay true wDevice 0 selfRelayPkt).2 (by decide)⟩

/-- A successful scan points at a registered peer holding the requested id. -/
theorem find_peer_from_some (l : List DPReceivePeer) (id : Nat) (i : Nat)
    (h : find_peer_from l id = some i) :
    ∃ p, l[i]? = some p ∧ p.peer_id = id := by
  induction l generalizing i with
  | nil => simp [find_peer_from] at h
  | cons p rest ih =>
    unfold find_peer_from at h
    split at h
    · obtain rfl : (0 : Nat) = i := by simpa using h
      exact ⟨p, by simp, by assumption⟩
    · rcases hr : find_peer_from rest id with _ | j
      · rw [hr] at h
        simp at h
      · rw [hr] at h
        simp at h
        obtain ⟨q, hq1, hq2⟩ := ih j hr
        subst h
        exact ⟨q, by simpa using hq1, hq2⟩

/-- The scan fails exactly when no registered peer holds the requested id. -/
theorem find_peer_from_none (l : List DPReceivePeer) (id : Nat) :
    find_peer_from l id = none ↔ ∀ p ∈ l, p.peer_id ≠ id := by
  induction l with
  | nil => simp [find_peer_from]
  | cons p rest ih =>
    unfold find_peer_from
    split
    · rename_i hpid
      simp [List.forall_mem_cons, hpid]
    · rename_i hpid
      simp [Option.map_eq_none', ih, List.forall_mem_cons, hpid]

/-- C9: the registry scan returns a registered peer holding the requested id
when one exists and `none` exactly when no registered peer holds it; and
registration appends the new peer at the back of the list unconditionally —
no duplicate-id rejection is performed even when a peer with the same id is
already registered. -/
theorem C9_registry_find_register (d : DPReceiveDevice) (id : Nat) :
    (∀ i, find_peer d id = some i →
      ∃ p, d.peers_list[i]? = some p ∧ p.peer_id = id) ∧
    (find_peer d id = none ↔ ∀ p ∈ d.peers_list, p.peer_id ≠ id) ∧
    (∀ q : DPReceivePeer, (DPReceivePeer_Init d q).peers_list = d.peers_list ++ [q]) :=
  ⟨fun i h => find_peer_from_some d.peers_list id i h,
   find_peer_from_none d.peers_list id,
   fun _ => rfl⟩

/-- C9 witness: on `wDevice` the scan for id 5 finds `wPeer` at position 0,
and registering a second peer with the same id 5 still appends it. -/
theorem C9_witness :
    (∃ p, wDevice.peers_list[0]? = some p ∧ p.peer_id = 5) ∧
    (DPReceivePeer_Init wDevice wPeer).peers_list = wDevice.peers_list ++ [wPeer] :=
  ⟨(C9_registry_find_register wDevice 5).1 0 (by decide),
   (C9_registry_find_register wDevice 5).2.2 wPeer⟩

/-- Once the routing block is reached, the validation of steps 2-5 has
passed, so a peer with an attached sink has been notified. -/
theorem route_one_sink_mem (hostLE : Bool) (device : DPReceiveDevice) (peerIdx : Nat)
    (packet : List Nat) (hsink : (getPeer device peerIdx).dp_sink = true) :
    Event.sinkNotified (keepalive_bit packet) ∈ (route_one hostLE device peerIdx packet).2.1 := by
  unfold route_one sink_events
  repeat' split
  all_goals simp_all

/-- The sink notification appears among the body events exactly when the
checks of steps 2-5 all pass (`pre_routing_ok`), for a peer with an attached
sink. -/
theorem handler_body_sink_iff (hostLE : Bool) (device : DPReceiveDevice) (peerIdx : Nat)
    (packet : List Nat) (hsink : (getPeer device peerIdx).dp_sink = true) :
    (Event.sinkNotified (keepalive_bit packet) ∈ (handler_body hostLE device peerIdx packet).2.1)
      ↔ pre_routing_ok device packet := by
  unfold handler_body
  repeat' split
  all_goals
    first
      | (apply iff_of_false (by simp)
         unfold pre_routing_ok
         omega)
      | (apply iff_of_true (route_one_sink_mem hostLE device peerIdx packet hsink)
         unfold pre_routing_ok
         omega)
      | (apply iff_of_true (by simp [sink_events, hsink])
         unfold pre_routing_ok
         omega)

/-- C4: for a peer with an attached sink, the sink notification fires if and
only if the frame passed the header, destination-count, destination-bytes
and MTU checks of steps 2-5; in particular an invalid destination count
suppresses it, and later routing failures do not. -/
theorem C4_sink_gate (hostLE : Bool) (device : DPReceiveDevice) (peerIdx : Nat)
    (packet : List Nat) (hsink : (getPeer device peerIdx).dp_sink = true) :
    (Event.sinkNotified (keepalive_bit packet) ∈
        (receiver_recv_handler_send hostLE device peerIdx packet).2) ↔
      pre_routing_ok device packet := by
  have hiff := handler_body_sink_iff hostLE device peerIdx packet hsink
  rcases hb : handler_body hostLE device peerIdx packet with ⟨dev, evs, lo, ro⟩
  rw [hb] at hiff
  have htrans : (Event.sinkNotified (keepalive_bit packet) ∈
      (receiver_recv_handler_send hostLE device peerIdx packet).2) ↔
      (Event.sinkNotified (keepalive_bit packet) ∈ evs) := by
    simp only [receiver_recv_handler_send, hb]
    constructor
    · intro h
      rcases List.mem_append.mp h with h | h
      · exact h
      · exfalso
        unfold out_tail at h
        rcases lo with _ | opl <;> rcases ro with _ | ⟨s2, d2, pl2⟩ <;> simp_all
    · intro h
      exact List.mem_append.mpr (Or.inl h)
  exact htrans.trans hiff

/-- C4 witness: on `localPkt` (which passes steps 2-5) the sink of `wPeer` is
notified. -/
theorem C4_witness :
    Event.sinkNotified (keepalive_bit localPkt) ∈
      (receiver_recv_handler_send true wDevice 0 localPkt).2 :=
  (C4_sink_gate true wDevice 0 localPkt (by decide)).mpr (by decide)

/-- C3 witness: the exactly-once release decomposition at a concrete local
delivery. -/
theorem C3_witness :
    ∃ pre post,
      (receiver_recv_handler_send true wDevice 0 localPkt).2 = pre ++ Event.done :: post ∧
      pre.countP is_done_event = 0 ∧
      pre.countP is_output_event = 0 ∧
      pre.countP is_relay_event = 0 ∧
      post.countP is_done_event = 0 ∧
      ∀ e ∈ post, is_output_event e = true ∨ is_relay_event e = true :=
  C3_slot_release_once true wDevice 0 localPkt

/-- C10 witness: the device state is unchanged by a concrete local delivery. -/
theorem C10_witness :
    (receiver_recv_handler_send true wDevice 0 localPkt).1 = wDevice :=
  C10_state_preserved true wDevice 0 localPkt
